import Mathlib

/-!
Verification development for the AI-Agents Hub core library
(`ai_agents/__init__.py` and `ai_agents/agent.py`).

The Python code is shallowly embedded:

* YAML / JSON values (`yaml.safe_load` results, payload values, configuration
  values) become the inductive type `Value`.  Mapping keys are modelled as
  strings (the workflows of this repository use only string keys).
* A Python `dict` with string keys is an association list `PyDict` whose
  operations mirror CPython semantics: lookup finds the unique binding,
  assignment updates a present key in place and appends an absent one.
* The process-wide registry `AGENT_REGISTRY` is threaded explicitly as a
  value of type `Registry`.
* Raised exceptions become the `Except PyError` monad; file I/O and YAML
  parsing are outside the model, so the runner receives the already-parsed
  specification `Value` instead of a file path.
* An agent class is a record of its `__name__`, its `__init__` (every class
  in the repository inherits `BaseAgent.__init__`), and its `process` method
  acting on the instance configuration produced by `__init__`.
-/

/-- Values of the dynamic language: results of parsing YAML/JSON, payload
entries and configuration entries.  Mapping keys are modelled as strings.
Floats are not needed by any workflow of this repository and are omitted. -/
inductive Value where
  | vNone : Value
  | vBool : Bool → Value
  | vInt : Int → Value
  | vStr : String → Value
  | vList : List Value → Value
  | vDict : List (String × Value) → Value

/-- A Python dict with string keys, as an association list in insertion
order with unique keys. -/
abbrev PyDict := List (String × Value)

/-- Lookup in a dict: the binding of `key`, if present (`d[key]` / `key in d`). -/
def dlookup {α : Type} : List (String × α) → String → Option α
  | [], _ => none
  | (k, v) :: rest, key => if k = key then some v else dlookup rest key

/-- Dict assignment `d[key] = v`: a present key keeps its position and gets the
new value, an absent key is appended at the end (CPython insertion order). -/
def dinsert {α : Type} : List (String × α) → String → α → List (String × α)
  | [], key, v => [(key, v)]
  | (k, w) :: rest, key, v =>
    if k = key then (key, v) :: rest else (k, w) :: dinsert rest key v

/-- Dict read with default, `d.get(key, dflt)`. -/
def dictGetD (d : PyDict) (key : String) (dflt : Value) : Value :=
  match dlookup d key with
  | some v => v
  | none => dflt

/-- Truthiness of a value, as used by `config or {}` and `initial_payload or {}`. -/
def truthy : Value → Bool
  | .vNone => false
  | .vBool b => b
  | .vInt n => decide (n ≠ 0)
  | .vStr s => decide (s ≠ "")
  | .vList xs => !xs.isEmpty
  | .vDict es => !es.isEmpty

/-- A single-quote character, kept out of string literals for hygiene. -/
def sglq : String := String.singleton (Char.ofNat 39)

/-- Name of a value class, as it appears in interpreter error messages. -/
def pyTypeName : Value → String
  | .vNone => "NoneType"
  | .vBool _ => "bool"
  | .vInt _ => "int"
  | .vStr _ => "str"
  | .vList _ => "list"
  | .vDict _ => "dict"

mutual
/-- Interpreter `repr` of a value.  Strings are always rendered with single
quotes; escaping of special characters inside strings is not modelled (no
workflow value of this repository contains them). -/
def pyRepr : Value → String
  | .vNone => "None"
  | .vBool b => if b then "True" else "False"
  | .vInt n => toString n
  | .vStr s => sglq ++ s ++ sglq
  | .vList xs => "[" ++ pyReprList xs ++ "]"
  | .vDict es => "\x7b" ++ pyReprDict es ++ "\x7d"

/-- Comma-separated `repr`s of list elements. -/
def pyReprList : List Value → String
  | [] => ""
  | [x] => pyRepr x
  | x :: y :: rest => pyRepr x ++ ", " ++ pyReprList (y :: rest)

/-- Comma-separated `repr`s of dict entries. -/
def pyReprDict : List (String × Value) → String
  | [] => ""
  | [(k, v)] => sglq ++ k ++ sglq ++ ": " ++ pyRepr v
  | (k, v) :: e :: rest => sglq ++ k ++ sglq ++ ": " ++ pyRepr v ++ ", " ++ pyReprDict (e :: rest)
end

/-- Interpreter `str` of a value, as produced by f-string interpolation. -/
def pyStr : Value → String
  | .vStr s => s
  | v => pyRepr v

/-- Exceptions raised by the embedded code, carrying their message. -/
inductive PyError where
  | keyError : String → PyError
  | valueError : String → PyError
  | typeError : String → PyError
  | attributeError : String → PyError
  | notImplementedError : String → PyError
deriving DecidableEq, Repr

/-- Tests whether a runner result is a `MalformedSpec` failure, i.e. a
`ValueError` raised by `run_workflow` itself. -/
def resultIsMalformedSpec : Except PyError PyDict → Bool
  | .error (.valueError _) => true
  | _ => false

/-- An agent class: its `__name__`, its `__init__` (mapping the constructor
argument to the instance configuration `self.config`), and its `process`
method (taking `self.config` and the payload). -/
structure AgentClass where
  name : String
  init : Value → Value
  process : Value → PyDict → Except PyError PyDict

/-- The global `AGENT_REGISTRY`, threaded explicitly. -/
abbrev Registry := List (String × AgentClass)

/-- Message of the `KeyError` raised by `get_agent_class`. -/
def notRegisteredMsg (name : String) : String :=
  "Agent " ++ sglq ++ name ++ sglq ++ " is not registered."

/-- Decorator `register_agent`: stores the class under its `__name__` in the
registry and returns the class unchanged. -/
def register_agent (reg : Registry) (cls : AgentClass) : Registry × AgentClass :=
  (dinsert reg cls.name cls, cls)

/-- Registers a sequence of classes in order, starting from `reg`. -/
def registerAll (reg : Registry) (cs : List AgentClass) : Registry :=
  cs.foldl (fun r c => (register_agent r c).1) reg

/-- Lookup `AGENT_REGISTRY[name]` of `get_agent_class`, on a dynamic name as
taken from the step mapping: a missing key becomes a `KeyError` carrying the
name, an unhashable key a `TypeError`. -/
def get_agent_class (reg : Registry) (name : Value) : Except PyError AgentClass :=
  match name with
  | .vStr s =>
    match dlookup reg s with
    | some cls => .ok cls
    | none => .error (.keyError (notRegisteredMsg s))
  | .vList _ => .error (.typeError ("unhashable type: " ++ sglq ++ "list" ++ sglq))
  | .vDict _ => .error (.typeError ("unhashable type: " ++ sglq ++ "dict" ++ sglq))
  | other => .error (.keyError (notRegisteredMsg (pyStr other)))

/-- Read-only stateful view of `get_agent_class` against the global registry:
the second component is the registry after the call. -/
def registryResolve (reg : Registry) (name : Value) :
    Except PyError AgentClass × Registry :=
  (get_agent_class reg name, reg)

/-- Body of `BaseAgent.__init__`: `self.config = config or \x7b\x7d`. -/
def baseAgentInit (config : Value) : Value :=
  if truthy config then config else .vDict []

/-- Message of the `NotImplementedError` raised by `BaseAgent.process`. -/
def notImplementedMsg : String := "Sub‑classes must implement `process`."

/-- Body of `BaseAgent.process`: always raises `NotImplementedError`. -/
def baseProcess : Value → PyDict → Except PyError PyDict :=
  fun _ _ => .error (.notImplementedError notImplementedMsg)

/-- The `BaseAgent` class itself (never registered: it has no decorator). -/
def BaseAgentCls : AgentClass :=
  ⟨"BaseAgent", baseAgentInit, baseProcess⟩

/-- Message written under the key `message` by `EchoAgent.process`:
the configured prefix (default `"Echo:"`), one space, and the value under
the payload key `input` (default the empty string), both via `str`. -/
def echoMsg (config : PyDict) (payload : PyDict) : Value :=
  .vStr (pyStr (dictGetD config "prefix" (.vStr "Echo:")) ++ " "
    ++ pyStr (dictGetD payload "input" (.vStr "")))

/-- Body of `EchoAgent.process`: copies the payload and sets `message`.
Reading `.get` off a non-dict `self.config` raises `AttributeError`. -/
def echoProcess : Value → PyDict → Except PyError PyDict :=
  fun selfConfig payload =>
    match selfConfig with
    | .vDict cfg => .ok (dinsert payload "message" (echoMsg cfg payload))
    | other =>
      .error (.attributeError
        (sglq ++ pyTypeName other ++ sglq ++ " object has no attribute " ++ sglq ++ "get" ++ sglq))

/-- The `EchoAgent` class: inherits `BaseAgent.__init__`, overrides `process`. -/
def EchoAgentCls : AgentClass :=
  ⟨"EchoAgent", baseAgentInit, echoProcess⟩

/-- The registry as populated on import: `autodiscover_agents` imports
`ai_agents.agent`, whose `@register_agent` decorator registers `EchoAgent`. -/
def initialRegistry : Registry :=
  (register_agent [] EchoAgentCls).1

/-- Message of the `ValueError` raised when the specification is not a mapping
with an `agents` key. -/
def missingAgentsMsg : String :=
  "Workflow YAML must contain a top‑level `agents` list."

/-- Message of the `ValueError` raised for a malformed step at a 1-based
position. -/
def malformedMsg (idx : Nat) : String :=
  "Agent definition at position " ++ toString idx ++ " is malformed."

/-- Tests `isinstance(spec, dict) and "agents" in spec`, the condition the
runner validates first (negated in the source). -/
def specHasAgents : Value → Bool
  | .vDict es => (dlookup es "agents").isSome
  | _ => false

/-- Shape validated for each step: `isinstance(agent_def, dict)` and
`"name" in agent_def`. -/
def stepShapeOk : Value → Bool
  | .vDict es => (dlookup es "name").isSome
  | _ => false

/-- Python iteration `for x in v`: lists yield their elements, strings their
characters, dicts their keys; other values raise `TypeError`. -/
def pyIter : Value → Except PyError (List Value)
  | .vList xs => .ok xs
  | .vStr s => .ok (s.toList.map (fun c => .vStr (String.singleton c)))
  | .vDict es => .ok (es.map (fun e => Value.vStr e.1))
  | other =>
    .error (.typeError (sglq ++ pyTypeName other ++ sglq ++ " object is not iterable"))

/-- The `initial_payload or \x7b\x7d` defaulting of the runner, on the
`Dict[str, Any] | None` argument. -/
def defaultedPayload : Option PyDict → PyDict
  | none => []
  | some d => if d.isEmpty then [] else d

/-- One iteration of the runner loop at 1-based position `idx`: validate the
step shape, read `name` and `config` (default empty mapping), resolve the
class, construct the instance (`AgentCls(config)` runs the `__init__` of the
class), and call `process` on the current payload. -/
def runStep1 (reg : Registry) (idx : Nat) (step : Value) (payload : PyDict) :
    Except PyError PyDict :=
  match step with
  | .vDict es =>
    match dlookup es "name" with
    | some nameVal =>
      let config := dictGetD es "config" (.vDict [])
      match get_agent_class reg nameVal with
      | .ok cls => cls.process (cls.init config) payload
      | .error e => .error e
    | none => .error (.valueError (malformedMsg idx))
  | _ => .error (.valueError (malformedMsg idx))

/-- The `for` loop of the runner over the step list, starting at position
`idx`: the payload returned by each step feeds the next step; the first error
aborts the remaining steps. -/
def runSteps (reg : Registry) (idx : Nat) (payload : PyDict) :
    List Value → Except PyError PyDict
  | [] => .ok payload
  | step :: rest =>
    match runStep1 reg idx step payload with
    | .ok next => runSteps reg (idx + 1) next rest
    | .error e => .error e

/-- The workflow runner `run_workflow`, from the parsed specification value
(file reading and YAML parsing are outside the model): validate the top-level
shape, default the initial payload, iterate over the `agents` value. -/
def run_workflow (reg : Registry) (spec : Value) (initial_payload : Option PyDict) :
    Except PyError PyDict :=
  match spec with
  | .vDict es =>
    match dlookup es "agents" with
    | some agentsVal =>
      let payload := defaultedPayload initial_payload
      match pyIter agentsVal with
      | .ok items => runSteps reg 1 payload items
      | .error e => .error e
    | none => .error (.valueError missingAgentsMsg)
  | _ => .error (.valueError missingAgentsMsg)

/-- The per-step action of the runner with the positional index erased, used
to state the runner as a left fold; the branches for a malformed step are
unreachable for well-formed steps and carry a fixed message. -/
def applyStep (reg : Registry) (step : Value) (payload : PyDict) :
    Except PyError PyDict :=
  match step with
  | .vDict es =>
    match dlookup es "name" with
    | some nameVal =>
      match get_agent_class reg nameVal with
      | .ok cls => cls.process (cls.init (dictGetD es "config" (.vDict []))) payload
      | .error e => .error e
    | none => .error (.valueError "malformed step")
  | _ => .error (.valueError "malformed step")

/-- Well-formedness of one step, as assumed by the fold claim: a mapping with
a string `name` that resolves in the registry. -/
def wfStep (reg : Registry) (v : Value) : Bool :=
  match v with
  | .vDict es =>
    match dlookup es "name" with
    | some (.vStr s) => (dlookup reg s).isSome
    | _ => false
  | _ => false

theorem dlookup_dinsert_self {α : Type} (d : List (String × α)) (k : String) (v : α) :
    dlookup (dinsert d k v) k = some v := by
  induction d with
  | nil => simp [dinsert, dlookup]
  | cons e rest ih =>
    obtain ⟨k0, v0⟩ := e
    by_cases h : k0 = k
    · simp [dinsert, h, dlookup]
    · simp [dinsert, h, dlookup, ih]

theorem dlookup_dinsert_ne {α : Type} (d : List (String × α)) (k k' : String) (v : α)
    (h : k' ≠ k) : dlookup (dinsert d k v) k' = dlookup d k' := by
  have hne : k ≠ k' := fun hh => h hh.symm
  induction d with
  | nil => simp [dinsert, dlookup, hne]
  | cons e rest ih =>
    obtain ⟨k0, v0⟩ := e
    by_cases h0 : k0 = k
    · subst h0
      simp [dinsert, dlookup, hne]
    · simp [dinsert, h0, dlookup, ih]

theorem defaultedPayload_some (d : PyDict) : defaultedPayload (some d) = d := by
  cases d <;> rfl

/-- C7: the empty pipeline is the identity — a specification whose `agents`
list is empty returns the initial payload unchanged, for every registry and
every initial payload. -/
theorem run_workflow_empty_agents_identity (reg : Registry) (es : PyDict) (p0 : PyDict)
    (hag : dlookup es "agents" = some (.vList [])) :
    run_workflow reg (.vDict es) (some p0) = .ok p0 := by
  simp [run_workflow, hag, pyIter, runSteps, defaultedPayload_some]

theorem run_workflow_empty_agents_identity_witness :
    run_workflow initialRegistry (.vDict [("agents", .vList [])])
      (some [("input", .vStr "x")]) = .ok [("input", .vStr "x")] :=
  run_workflow_empty_agents_identity initialRegistry [("agents", .vList [])]
    [("input", .vStr "x")] rfl

/-- C4: a specification that is not a mapping or has no `agents` key fails
with the `MalformedSpec` error naming the missing key; the result does not
depend on the registry or the initial payload, so no pipeline step can
contribute to it. -/
theorem run_workflow_missing_agents_key (reg : Registry) (spec : Value)
    (ip : Option PyDict) (h : specHasAgents spec = false) :
    run_workflow reg spec ip = .error (.valueError missingAgentsMsg) := by
  cases spec with
  | vDict es =>
    have hnone : dlookup es "agents" = none := by
      cases hl : dlookup es "agents" with
      | none => rfl
      | some v => simp [specHasAgents, hl] at h
    simp [run_workflow, hnone]
  | vNone => rfl
  | vBool b => rfl
  | vInt n => rfl
  | vStr s => rfl
  | vList l => rfl

theorem run_workflow_missing_agents_key_witness :
    specHasAgents (.vDict [("steps", .vList [])]) = false ∧
    run_workflow initialRegistry (.vDict [("steps", .vList [])]) none =
      .error (.valueError missingAgentsMsg) :=
  ⟨rfl, run_workflow_missing_agents_key initialRegistry
    (.vDict [("steps", .vList [])]) none rfl⟩

/-- C5: resolving an unregistered identifier fails with a `KeyError`
(`NotRegistered`) whose message carries the identifier, and the registry
returned by the stateful view of the lookup is the one passed in. -/
theorem resolve_unregistered_keyerror (reg : Registry) (n : String)
    (h : dlookup reg n = none) :
    registryResolve reg (.vStr n) = (.error (.keyError (notRegisteredMsg n)), reg) := by
  simp [registryResolve, get_agent_class, h]

theorem resolve_unregistered_keyerror_witness :
    registryResolve initialRegistry (.vStr "NonExistentAgent") =
      (.error (.keyError (notRegisteredMsg "NonExistentAgent")), initialRegistry) :=
  resolve_unregistered_keyerror initialRegistry "NonExistentAgent" rfl

/-- C8: `register_agent` returns the very class it was given and records it in
the registry under its name. -/
theorem register_agent_returns_factory (reg : Registry) (cls : AgentClass) :
    (register_agent reg cls).2 = cls ∧
    dlookup (register_agent reg cls).1 cls.name = some cls :=
  ⟨rfl, dlookup_dinsert_self reg cls.name cls⟩

/-- C2: `EchoAgent.process` returns the payload with the single key `message`
added or overwritten to the configured prefix (default `"Echo:"`), a space,
and the payload value under `input` (default empty string); every other key keeps
the binding it had in the input payload. -/
theorem echo_process_adds_message (c p : PyDict) :
    EchoAgentCls.process (.vDict c) p = .ok (dinsert p "message" (echoMsg c p)) ∧
    dlookup (dinsert p "message" (echoMsg c p)) "message" = some (echoMsg c p) ∧
    ∀ k : String, k ≠ "message" →
      dlookup (dinsert p "message" (echoMsg c p)) k = dlookup p k :=
  ⟨rfl, dlookup_dinsert_self p "message" (echoMsg c p),
    fun k hk => dlookup_dinsert_ne p "message" k (echoMsg c p) hk⟩

theorem echo_process_adds_message_witness :
    EchoAgentCls.process (.vDict [("prefix", .vStr ">>")]) [("input", .vStr "hello")] =
      .ok (dinsert [("input", .vStr "hello")] "message"
        (echoMsg [("prefix", .vStr ">>")] [("input", .vStr "hello")])) ∧
    dlookup (dinsert [("input", .vStr "hello")] "message"
        (echoMsg [("prefix", .vStr ">>")] [("input", .vStr "hello")])) "input" =
      dlookup [("input", .vStr "hello")] "input" :=
  ⟨(echo_process_adds_message [("prefix", .vStr ">>")] [("input", .vStr "hello")]).1,
    (echo_process_adds_message [("prefix", .vStr ">>")] [("input", .vStr "hello")]).2.2
      "input" (by decide)⟩

/-- C9: a specification that is a mapping whose `agents` value is `None`
passes the missing-key check, yet `run_workflow` fails with a `TypeError`
from iterating over `None`, which is not a `MalformedSpec` error. -/
theorem run_workflow_agents_none_typeerror (reg : Registry) (p0 : PyDict) :
    specHasAgents (.vDict [("agents", .vNone)]) = true ∧
    run_workflow reg (.vDict [("agents", .vNone)]) (some p0) =
      .error (.typeError (sglq ++ "NoneType" ++ sglq ++ " object is not iterable")) ∧
    resultIsMalformedSpec (run_workflow reg (.vDict [("agents", .vNone)]) (some p0)) =
      false :=
  ⟨rfl, rfl, rfl⟩

theorem registerAll_dlookup (cs : List AgentClass) :
    ∀ (reg : Registry) (n : String),
      dlookup (registerAll reg cs) n =
        match cs.reverse.find? (fun x => x.name == n) with
        | some c => some c
        | none => dlookup reg n := by
  induction cs with
  | nil => intro reg n; rfl
  | cons c0 cs ih =>
    intro reg n
    have h1 : registerAll reg (c0 :: cs) = registerAll (dinsert reg c0.name c0) cs := rfl
    rw [h1, ih, List.reverse_cons, List.find?_append]
    cases hf : cs.reverse.find? (fun x => x.name == n) with
    | some c => simp [Option.or]
    | none =>
      simp only [Option.none_or]
      by_cases hc : c0.name = n
      · subst hc
        simp [List.find?, dlookup_dinsert_self]
      · have : (c0.name == n) = false := by simp [hc]
        simp [List.find?, this, dlookup_dinsert_ne reg c0.name n c0 (fun hh => hc hh.symm)]

/-- C6: after any sequence of registrations, resolving an identifier that was
registered at least once returns exactly the class most recently registered
under it; an earlier registration under the same name is silently
overwritten (`register_agent` is total, so no error is possible). -/
theorem resolve_last_write_wins (reg : Registry) (cs : List AgentClass)
    (n : String) (c : AgentClass)
    (h : cs.reverse.find? (fun x => x.name == n) = some c) :
    get_agent_class (registerAll reg cs) (.vStr n) = .ok c := by
  have hl := registerAll_dlookup cs reg n
  rw [h] at hl
  simp [get_agent_class, hl]

/-- Two distinct classes sharing the registered name, for exercising
last-write-wins. -/
def dupFirstCls : AgentClass := ⟨"DupAgent", baseAgentInit, baseProcess⟩

/-- Second class registered under the same name as `dupFirstCls`. -/
def dupSecondCls : AgentClass := ⟨"DupAgent", baseAgentInit, echoProcess⟩

theorem resolve_last_write_wins_witness :
    get_agent_class (registerAll [] [dupFirstCls, dupSecondCls]) (.vStr "DupAgent") =
      .ok dupSecondCls :=
  resolve_last_write_wins [] [dupFirstCls, dupSecondCls] "DupAgent" dupSecondCls rfl

/-- C10: a step whose `config` field is present but `None` constructs the
agent with the empty mapping: `BaseAgent.__init__` turns any falsy
configuration into an empty dict, so the step runs `process` with `self.config`
equal to the empty mapping rather than `None`. -/
theorem step_config_none_gives_empty_dict (reg : Registry) (idx : Nat)
    (p : PyDict) (es : PyDict) (n : String) (cls : AgentClass)
    (hname : dlookup es "name" = some (.vStr n))
    (hcfg : dlookup es "config" = some .vNone)
    (hcls : dlookup reg n = some cls)
    (hinit : cls.init = baseAgentInit) :
    baseAgentInit .vNone = .vDict [] ∧
    runStep1 reg idx (.vDict es) p = cls.process (.vDict []) p := by
  refine ⟨rfl, ?_⟩
  simp [runStep1, hname, get_agent_class, hcls, dictGetD, hcfg, hinit,
    baseAgentInit, truthy]

theorem step_config_none_gives_empty_dict_witness :
    baseAgentInit .vNone = .vDict [] ∧
    runStep1 initialRegistry 1
        (.vDict [("name", .vStr "EchoAgent"), ("config", .vNone)]) [] =
      EchoAgentCls.process (.vDict []) [] :=
  step_config_none_gives_empty_dict initialRegistry 1 []
    [("name", .vStr "EchoAgent"), ("config", .vNone)] "EchoAgent" EchoAgentCls
    rfl rfl rfl rfl

theorem foldl_bind_error (reg : Registry) (l : List Value) (e : PyError) :
    l.foldl (fun acc st => acc >>= applyStep reg st) (Except.error e) =
      Except.error e := by
  induction l with
  | nil => rfl
  | cons st rest ih => simpa only [List.foldl] using ih

theorem runStep1_eq_applyStep (reg : Registry) (idx : Nat) (step : Value)
    (payload : PyDict) (h : wfStep reg step = true) :
    runStep1 reg idx step payload = applyStep reg step payload := by
  cases step with
  | vDict es =>
    cases hn : dlookup es "name" with
    | none => rw [wfStep] at h; rw [hn] at h; simp at h
    | some nv =>
      cases nv with
      | vStr s =>
        rw [wfStep] at h; rw [hn] at h
        obtain ⟨cls, hcls⟩ := Option.isSome_iff_exists.mp h
        simp [runStep1, applyStep, hn, get_agent_class, hcls]
      | vNone => rw [wfStep] at h; rw [hn] at h; simp at h
      | vBool b => rw [wfStep] at h; rw [hn] at h; simp at h
      | vInt n => rw [wfStep] at h; rw [hn] at h; simp at h
      | vList l => rw [wfStep] at h; rw [hn] at h; simp at h
      | vDict d => rw [wfStep] at h; rw [hn] at h; simp at h
  | vNone => simp [wfStep] at h
  | vBool b => simp [wfStep] at h
  | vInt n => simp [wfStep] at h
  | vStr s => simp [wfStep] at h
  | vList l => simp [wfStep] at h

theorem runSteps_eq_foldl (reg : Registry) (steps : List Value) :
    ∀ (idx : Nat) (payload : PyDict), (∀ v ∈ steps, wfStep reg v = true) →
      runSteps reg idx payload steps =
        steps.foldl (fun acc st => acc >>= applyStep reg st) (.ok payload) := by
  induction steps with
  | nil => intro idx payload _; rfl
  | cons st rest ih =>
    intro idx payload h
    have hst : wfStep reg st = true := h st (by simp)
    have hrest : ∀ v ∈ rest, wfStep reg v = true := fun v hv => h v (by simp [hv])
    simp only [runSteps, List.foldl]
    rw [runStep1_eq_applyStep reg idx st payload hst]
    have hbind : ((Except.ok payload : Except PyError PyDict) >>= applyStep reg st) =
        applyStep reg st payload := rfl
    rw [hbind]
    cases hap : applyStep reg st payload with
    | ok next => exact ih (idx + 1) next hrest
    | error e => exact (foldl_bind_error reg rest e).symm

/-- C1: the runner is a strict left fold — on a specification whose `agents`
list is well-formed (each step a mapping with a registered string name) and
for every initial payload, the result is the left fold of the per-step action
(resolve the class by name, construct it with the configuration of the step
defaulting to the empty mapping, run `process`), each returned payload
feeding the next step. -/
theorem run_workflow_is_left_fold (reg : Registry) (es : PyDict)
    (steps : List Value) (p0 : PyDict)
    (hag : dlookup es "agents" = some (.vList steps))
    (hwf : ∀ v ∈ steps, wfStep reg v = true) :
    run_workflow reg (.vDict es) (some p0) =
      steps.foldl (fun acc st => acc >>= applyStep reg st) (.ok p0) := by
  simp only [run_workflow, hag, pyIter, defaultedPayload_some]
  exact runSteps_eq_foldl reg steps 1 p0 hwf

/-- First demo step: Echo with prefix `[A]`. -/
def stepA : Value :=
  .vDict [("name", .vStr "EchoAgent"), ("config", .vDict [("prefix", .vStr "[A]")])]

/-- Second demo step: Echo with prefix `[B]`. -/
def stepB : Value :=
  .vDict [("name", .vStr "EchoAgent"), ("config", .vDict [("prefix", .vStr "[B]")])]

theorem run_workflow_is_left_fold_witness :
    run_workflow initialRegistry (.vDict [("agents", .vList [stepA, stepB])])
        (some [("input", .vStr "payload")]) =
      [stepA, stepB].foldl (fun acc st => acc >>= applyStep initialRegistry st)
        (.ok [("input", .vStr "payload")]) :=
  run_workflow_is_left_fold initialRegistry [("agents", .vList [stepA, stepB])]
    [stepA, stepB] [("input", .vStr "payload")] rfl
    (by intro v hv; simp at hv; rcases hv with h | h <;> subst h <;> rfl)

theorem runSteps_append (reg : Registry) (l1 : List Value) :
    ∀ (l2 : List Value) (idx : Nat) (p : PyDict),
      runSteps reg idx p (l1 ++ l2) =
        match runSteps reg idx p l1 with
        | .ok q => runSteps reg (idx + l1.length) q l2
        | .error e => .error e := by
  induction l1 with
  | nil => intro l2 idx p; rfl
  | cons st rest ih =>
    intro l2 idx p
    have harith : idx + 1 + rest.length = idx + (rest.length + 1) := by omega
    simp only [List.cons_append, runSteps, List.length_cons]
    cases h : runStep1 reg idx st p with
    | ok next => simp only [List.append_eq, ih l2 (idx + 1) next, harith]
    | error e => rfl

theorem runStep1_malformed (reg : Registry) (idx : Nat) (step : Value)
    (p : PyDict) (h : stepShapeOk step = false) :
    runStep1 reg idx step p = .error (.valueError (malformedMsg idx)) := by
  cases step with
  | vDict es =>
    cases hn : dlookup es "name" with
    | none => simp [runStep1, hn]
    | some v => rw [stepShapeOk] at h; rw [hn] at h; simp at h
  | vNone => rfl
  | vBool b => rfl
  | vInt n => rfl
  | vStr s => rfl
  | vList l => rfl

/-- Counterexample to C3 as stated: in a registry holding only `EchoAgent`,
a specification whose first step names the unregistered agent `Ghost` and
whose second element is the non-mapping `42` contains a malformed element,
yet the runner fails with the `KeyError` of the first step, not with a
`MalformedSpec` error naming position 2. -/
theorem malformed_step_preempted_by_earlier_error :
    stepShapeOk (.vInt 42) = false ∧
    run_workflow initialRegistry
        (.vDict [("agents", .vList [.vDict [("name", .vStr "Ghost")], .vInt 42])])
        (some []) =
      .error (.keyError (notRegisteredMsg "Ghost")) ∧
    resultIsMalformedSpec (run_workflow initialRegistry
        (.vDict [("agents", .vList [.vDict [("name", .vStr "Ghost")], .vInt 42])])
        (some [])) = false :=
  ⟨rfl, rfl, rfl⟩

/-- C3 amended: if the element at 1-based position `i` of the `agents` list is
not a mapping containing the `name` field and all earlier steps execute
successfully, the runner fails with a `MalformedSpec` error naming
position `i` (position 1 for a malformed first element, where the earlier
part is empty and trivially succeeds). -/
theorem run_workflow_malformed_position (reg : Registry) (es : PyDict)
    (pre : List Value) (bad : Value) (rest : List Value) (p0 p1 : PyDict)
    (hag : dlookup es "agents" = some (.vList (pre ++ bad :: rest)))
    (hbad : stepShapeOk bad = false)
    (hpre : runSteps reg 1 p0 pre = .ok p1) :
    run_workflow reg (.vDict es) (some p0) =
      .error (.valueError (malformedMsg (pre.length + 1))) := by
  simp only [run_workflow, hag, pyIter, defaultedPayload_some]
  rw [runSteps_append reg pre (bad :: rest) 1 p0, hpre]
  simp only [Nat.add_comm 1 pre.length]
  simp only [runSteps, runStep1_malformed reg (pre.length + 1) bad p1 hbad]

theorem run_workflow_malformed_position_witness :
    run_workflow initialRegistry (.vDict [("agents", .vList [.vInt 42])]) (some []) =
      .error (.valueError (malformedMsg 1)) := by
  have h := run_workflow_malformed_position initialRegistry
    [("agents", .vList [.vInt 42])] [] (.vInt 42) [] [] [] rfl rfl rfl
  simpa using h
